import Mathlib

/-!
Shallow embedding of `src/kytos/of.flow-manager/main.py` (classes `Main` and
`FlowManager`), together with the external collaborator interfaces it uses
(kyco controller, pyof message classes), and theorems settling the claims
about flow installation, dumping, clearing, deletion, fan-out and the
statistics-reply handler.

Modelling conventions: the Python dict `self.flows` is an association list
`List (String × List (List Flow))` preserving insertion order (each stored
value is a list of reply batches, because the handler appends the decoded
list itself as one element); the controller's outbound buffer
`buffers.msg_out` is a list to which `put` appends; exceptions are the
`Err` type in an `Except` result.
-/

namespace OfFlowMgr

/-- Flow-mod command constants used by the app (pyof `FlowModCommand`). -/
inductive FlowModCommand where
  | OFPFC_ADD
  | OFPFC_DELETE
  deriving DecidableEq

/-- Statistics body types (pyof `StatsTypes`, v0x01). -/
inductive StatsTypes where
  | OFPST_DESC
  | OFPST_FLOW
  | OFPST_AGGREGATE
  | OFPST_TABLE
  | OFPST_PORT
  | OFPST_QUEUE
  | OFPST_VENDOR
  deriving DecidableEq

/-- A flow (kyco `Flow`): the fields the app reads are the identifier
(`flow.id`); the remaining attributes (match, actions, priority, timeouts,
cookie) are abstracted into one payload that distinguishes flows. -/
structure Flow where
  id : String
  payload : Nat
  deriving DecidableEq

/-- The wire-level flow-modification command produced by `Flow.as_flow_mod`. -/
structure FlowMod where
  command : FlowModCommand
  flow : Flow
  deriving DecidableEq

/-- Source `flow.as_flow_mod(command)`: deterministic construction of the
flow-mod message for this flow and command. -/
def Flow.as_flow_mod (f : Flow) (c : FlowModCommand) : FlowMod :=
  { command := c, flow := f }

/-- A pyof `Match`; `Match.empty` stands for the default-constructed
`Match()`, the all-wildcard (empty) match. -/
structure Match where
  wildcards : Nat
  deriving DecidableEq

/-- The default-constructed `Match()` used by `dump_flows`. -/
def Match.empty : Match :=
  { wildcards := 0 }

/-- One record of a flow-stats reply body (pyof `FlowStats` entry). -/
structure FlowStat where
  id : String
  payload : Nat
  deriving DecidableEq

/-- Source `Flow.from_flow_stats`: decodes one statistics record into a
Flow. -/
def Flow.from_flow_stats (fs : FlowStat) : Flow :=
  { id := fs.id, payload := fs.payload }

/-- A pyof `StatsRequest` as configured by `dump_flows`. -/
structure StatsRequest where
  body_type : StatsTypes
  match_ : Match
  deriving DecidableEq

/-- The inbound `ofpt_stats_reply` message: a body type and, when the body
is flow statistics, its sequence of records. -/
structure StatsReply where
  body_type : StatsTypes
  body : List FlowStat
  deriving DecidableEq

/-- Content of an inbound stats-reply `KycoEvent`: the message and the dpid
of the switch it came from (`event.content` keys `message` and `switch`). -/
structure StatsReplyEvent where
  message : StatsReply
  switch : String
  deriving DecidableEq

/-- Payload of an outbound event: a flow-mod or a stats request. -/
inductive Message where
  | flowMod (fm : FlowMod)
  | statsRequest (req : StatsRequest)
  deriving DecidableEq

/-- An outbound `KycoEvent`: name, destination connection, message. -/
structure KycoEvent where
  name : String
  destination : String
  message : Message
  deriving DecidableEq

/-- A switch handle; the app only reads `switch.connection`. -/
structure Switch where
  connection : String
  deriving DecidableEq

/-- The controller collaborator state: the known-switch dict (dpid keyed,
insertion ordered) and the `buffers.msg_out` outbound buffer. -/
structure Controller where
  switches : List (String × Switch)
  msg_out : List KycoEvent
  deriving DecidableEq

/-- Exceptions the embedded operations can raise. -/
inductive Err where
  | UnknownSwitchError (dpid : String)
  | KeyError (key : String)
  | AttributeError (attr : String)
  deriving DecidableEq

/-- Modelled from the spec: the controller collaborator's switch lookup by
dpid (`controller.get_switch_by_dpid`, kyco code not under src). Per the
spec's external-interface section it yields the switch handle and fails
with `UnknownSwitchError` when the dpid does not resolve. -/
def Controller.get_switch_by_dpid (c : Controller) (dpid : String) : Except Err Switch :=
  match c.switches.lookup dpid with
  | some sw => .ok sw
  | none => .error (.UnknownSwitchError dpid)

/-- `controller.buffers.msg_out.put(event)`: appends one outbound event. -/
def Controller.put (c : Controller) (e : KycoEvent) : Controller :=
  { c with msg_out := c.msg_out ++ [e] }

/-- Combined state of a `FlowManager`: its controller reference and its
`self.flows` dict (dpid to list of appended reply batches). -/
structure FMState where
  controller : Controller
  flows : List (String × List (List Flow))
  deriving DecidableEq

/-- Python dict assignment `d[k] = v` on the association list, keeping the
key's position when present, appending otherwise. -/
def storeSet (k : String) (v : List (List Flow)) :
    List (String × List (List Flow)) → List (String × List (List Flow))
  | [] => [(k, v)]
  | (k', v') :: rest => if k' = k then (k, v) :: rest else (k', v') :: storeSet k v rest

/-- The outbound flow-mod event built by `install_new_flow` (and by the
loop bodies of `clear_flows`/`delete_flow` had they been reached). -/
def mkFlowModEvent (fm : FlowMod) (conn : String) : KycoEvent :=
  { name := "kytos/of.flow-manager.messages.out.ofpt_flow_mod",
    destination := conn,
    message := .flowMod fm }

/-- ADD flow-mod event for a flow, as emitted by `install_new_flow`. -/
def mkAddEvent (flow : Flow) (conn : String) : KycoEvent :=
  mkFlowModEvent (flow.as_flow_mod .OFPFC_ADD) conn

/-- The outbound stats-request event built by `dump_flows`: stats type
`OFPST_FLOW` and the default `Match()`. -/
def mkStatsRequestEvent (conn : String) : KycoEvent :=
  { name := "kytos/of.flow-manager.messages.out.ofpt_stats_request",
    destination := conn,
    message := .statsRequest { body_type := .OFPST_FLOW, match_ := Match.empty } }

/-- `FlowManager.install_new_flow(flow, dpid)`: resolve the switch, build an
ADD flow-mod from the flow, put one outbound event. `self.flows` is not
touched. -/
def FlowManager.install_new_flow (st : FMState) (flow : Flow) (dpid : String) :
    Except Err FMState :=
  match st.controller.get_switch_by_dpid dpid with
  | .error e => .error e
  | .ok switch =>
      .ok { st with controller := st.controller.put (mkAddEvent flow switch.connection) }

/-- `FlowManager.dump_flows(dpid)`: resolve the switch (before anything is
put in the buffer), build a `StatsRequest` with `body_type = OFPST_FLOW`
and `match = Match()`, put one outbound event. -/
def FlowManager.dump_flows (st : FMState) (dpid : String) : Except Err FMState :=
  match st.controller.get_switch_by_dpid dpid with
  | .error e => .error e
  | .ok switch =>
      .ok { st with controller := st.controller.put (mkStatsRequestEvent switch.connection) }

/-- Loop of `clear_flows`: in the source, `for flow in self.flows` iterates
the dict's KEYS (dpid strings), so on the first iteration
`flow.as_flow_mod(...)` is an attribute access on a string and raises
AttributeError; with no keys the loop body never runs. -/
def clearLoop (st : FMState) : List String → Except Err FMState
  | [] => .ok st
  | _ :: _ => .error (.AttributeError "as_flow_mod")

/-- `FlowManager.clear_flows(dpid)`: resolve the switch, then run the loop
over the keys of `self.flows`. -/
def FlowManager.clear_flows (st : FMState) (dpid : String) : Except Err FMState :=
  match st.controller.get_switch_by_dpid dpid with
  | .error e => .error e
  | .ok _switch => clearLoop st (st.flows.map Prod.fst)

/-- Loop of `delete_flow`: `for flow in self.flows` iterates the dict's
KEYS, so on the first iteration `flow.id` is an attribute access on a
string and raises AttributeError; with no keys the loop body never runs. -/
def deleteLoop (st : FMState) : List String → Except Err FMState
  | [] => .ok st
  | _ :: _ => .error (.AttributeError "id")

/-- `FlowManager.delete_flow(flow_id, dpid)`: resolve the switch, then run
the loop over the keys of `self.flows` (the id comparison is never reached). -/
def FlowManager.delete_flow (st : FMState) (_flow_id : String) (dpid : String) :
    Except Err FMState :=
  match st.controller.get_switch_by_dpid dpid with
  | .error e => .error e
  | .ok _switch => deleteLoop st (st.flows.map Prod.fst)

/-- Source `FlowManager._get_flows`: maps `Flow.from_flow_stats` over the
records of a flow-stats reply body. -/
def FlowManager.get_flows (flow_stats : List FlowStat) : List Flow :=
  flow_stats.map Flow.from_flow_stats

/-- `FlowManager.handle_flow_stats_reply(event)`: when the body type is
`OFPST_FLOW`, decode the body, then read `self.flows[switch_dpid]` — a
KeyError when the dpid has no entry; the `is None` guard never fires since
stored values are lists; otherwise `.append(flows)` adds the decoded list
as ONE nested element. Other body types fall through silently. -/
def FlowManager.handle_flow_stats_reply (st : FMState) (event : StatsReplyEvent) :
    Except Err FMState :=
  let msg := event.message
  if msg.body_type = StatsTypes.OFPST_FLOW then
    let flows := FlowManager.get_flows msg.body
    let switch_dpid := event.switch
    match st.flows.lookup switch_dpid with
    | none => .error (.KeyError switch_dpid)
    | some cached =>
        .ok { st with flows := storeSet switch_dpid (cached ++ [flows]) st.flows }
  else
    .ok st

/-- `Main.retrieve_flows(dpid)`: with a dpid, `self.flow_manager.flows[dpid]`
(KeyError when absent) wrapped in a singleton list; with none, the stored
values in insertion order. -/
def Main.retrieve_flows (st : FMState) (dpid : Option String) :
    Except Err (List (List (List Flow))) :=
  match dpid with
  | some d =>
      match st.flows.lookup d with
      | some v => .ok [v]
      | none => .error (.KeyError d)
  | none => .ok (st.flows.map Prod.snd)

/-- Fan-out loop of `Main.insert_flow` with no dpid: sequential
`install_new_flow` per known dpid; an exception propagates and stops the
loop. -/
def insertFanout (flow : Flow) : FMState → List String → Except Err FMState
  | st, [] => .ok st
  | st, d :: rest =>
      match FlowManager.install_new_flow st flow d with
      | .ok st' => insertFanout flow st' rest
      | .error e => .error e

/-- `Main.insert_flow(dpid)` after the request body has been parsed into
`received_flow`: one install, or the fan-out over the keys of
`controller.switches`. -/
def Main.insert_flow (st : FMState) (received_flow : Flow) (dpid : Option String) :
    Except Err FMState :=
  match dpid with
  | some d => FlowManager.install_new_flow st received_flow d
  | none => insertFanout received_flow st (st.controller.switches.map Prod.fst)

/-- Fan-out loop of `Main.clear_flows` with no dpid. The first component
records the dpids for which the loop body was invoked before an exception
aborted the loop (the loop has no exception handler, so an error stops it). -/
def clearFanout : FMState → List String → List String × Except Err FMState
  | st, [] => ([], .ok st)
  | st, d :: rest =>
      match FlowManager.clear_flows st d with
      | .ok st' =>
          let r := clearFanout st' rest
          (d :: r.1, r.2)
      | .error e => ([d], .error e)

/-- `Main.clear_flows(dpid)`: one per-switch clear, or the fan-out over the
keys of `controller.switches`. -/
def Main.clear_flows (st : FMState) (dpid : Option String) : Except Err FMState :=
  match dpid with
  | some d => FlowManager.clear_flows st d
  | none => (clearFanout st (st.controller.switches.map Prod.fst)).2

/-- Fan-out loop of `Main.delete_flow` with no dpid, with the invoked-dpid
trace as for `clearFanout`. -/
def deleteFanout (flow_id : String) : FMState → List String → List String × Except Err FMState
  | st, [] => ([], .ok st)
  | st, d :: rest =>
      match FlowManager.delete_flow st flow_id d with
      | .ok st' =>
          let r := deleteFanout flow_id st' rest
          (d :: r.1, r.2)
      | .error e => ([d], .error e)

/-- `Main.delete_flow(flow_id, dpid)`: one per-switch delete, or the
fan-out over the keys of `controller.switches`. -/
def Main.delete_flow (st : FMState) (flow_id : String) (dpid : Option String) :
    Except Err FMState :=
  match dpid with
  | some d => FlowManager.delete_flow st flow_id d
  | none => (deleteFanout flow_id st (st.controller.switches.map Prod.fst)).2

/-- The connection a dpid resolves to, read off the switch dict (empty
string when absent; only used where resolution succeeds). -/
def connOf (c : Controller) (d : String) : String :=
  match c.switches.lookup d with
  | some sw => sw.connection
  | none => ""

/-! Concrete sample data used by witnesses and counterexamples. -/

/-- Sample flow with id F7. -/
def fA : Flow := { id := "F7", payload := 0 }

/-- Sample flow with id F8. -/
def fB : Flow := { id := "F8", payload := 1 }

/-- Stats record decoding to `fA`. -/
def fsA : FlowStat := { id := "F7", payload := 0 }

/-- Stats record decoding to `fB`. -/
def fsB : FlowStat := { id := "F8", payload := 1 }

/-- Sample switch D1. -/
def swA : Switch := { connection := "connA" }

/-- Sample switch D2. -/
def swB : Switch := { connection := "connB" }

/-- Controller knowing switches D1 and D2, empty outbound buffer. -/
def ctrl2 : Controller := { switches := [("D1", swA), ("D2", swB)], msg_out := [] }

/-- State with an empty flow store. -/
def stEmpty : FMState := { controller := ctrl2, flows := [] }

/-- State whose store has one entry: dpid D1 with one cached batch [fA]. -/
def stCached : FMState := { controller := ctrl2, flows := [("D1", [[fA]])] }

/-! Helper lemmas. -/

/-- A key of the switch dict always resolves in that dict. -/
theorem lookup_isSome_of_mem_keys (m : List (String × Switch)) (d : String)
    (h : d ∈ m.map Prod.fst) : (m.lookup d).isSome = true := by
  induction m with
  | nil => simp at h
  | cons p rest ih =>
      obtain ⟨k, v⟩ := p
      simp only [List.map_cons, List.mem_cons] at h
      rcases h with h | h
      · subst h
        simp [List.lookup]
      · simp only [List.lookup]
        cases hdk : (d == k) with
        | true => simp
        | false => simpa using ih h

/-- A successful fan-out install over dpids that all resolve appends one ADD
flow-mod event per dpid, in order, and leaves the switch dict and the flow
store unchanged. -/
theorem insertFanout_ok (flow : Flow) :
    ∀ (ds : List String) (st : FMState),
      (∀ d ∈ ds, (st.controller.switches.lookup d).isSome = true) →
      insertFanout flow st ds =
        .ok { controller :=
                { switches := st.controller.switches,
                  msg_out := st.controller.msg_out ++
                    ds.map (fun d => mkAddEvent flow (connOf st.controller d)) },
              flows := st.flows } := by
  intro ds
  induction ds with
  | nil =>
      intro st _
      simp [insertFanout]
  | cons d rest ih =>
      intro st h
      have hd := h d (List.mem_cons_self d rest)
      obtain ⟨sw, hsw⟩ := Option.isSome_iff_exists.mp hd
      have hrest : ∀ d' ∈ rest, (st.controller.switches.lookup d').isSome = true :=
        fun d' hd' => h d' (List.mem_cons_of_mem d hd')
      simp only [insertFanout, FlowManager.install_new_flow,
        Controller.get_switch_by_dpid, hsw]
      have step := ih
        { controller := st.controller.put (mkAddEvent flow sw.connection),
          flows := st.flows } hrest
      rw [step]
      simp [Controller.put, connOf, hsw]

/-! Claim theorems. -/

/-- C1: the handler, on a flow-statistics reply whose body decodes to
[fA, fB] for dpid D1, raises KeyError when D1 has no prior FlowStore entry
(first reply), and when a prior entry [[fA]] exists it appends the decoded
batch to it instead of replacing the entry with [fA, fB]. -/
theorem C1_handler_keyerror_and_append :
    FlowManager.handle_flow_stats_reply stEmpty
      ⟨⟨.OFPST_FLOW, [fsA, fsB]⟩, "D1"⟩ = .error (.KeyError "D1") ∧
    FlowManager.handle_flow_stats_reply stCached
      ⟨⟨.OFPST_FLOW, [fsA, fsB]⟩, "D1"⟩ =
      .ok { stCached with flows := [("D1", [[fA], [fA, fB]])] } := by
  exact ⟨rfl, rfl⟩

/-- C2: clear_flows iterates the store dict's KEYS: with a cached entry for
D1 it raises AttributeError on the first key and emits no DELETE command,
and with a wholly empty store it succeeds emitting nothing. -/
theorem C2_clear_flows_attribute_error :
    FlowManager.clear_flows stCached "D1" = .error (.AttributeError "as_flow_mod") ∧
    FlowManager.clear_flows stEmpty "D1" = .ok stEmpty := by
  exact ⟨rfl, rfl⟩

/-- C3: delete_flow iterates the store dict's KEYS: with a cached entry for
D1 holding a flow with id F7 it raises AttributeError reading `.id` on the
key string and emits no DELETE command; with a wholly empty store it
succeeds emitting nothing. -/
theorem C3_delete_flow_attribute_error :
    FlowManager.delete_flow stCached "F7" "D1" = .error (.AttributeError "id") ∧
    FlowManager.delete_flow stEmpty "F7" "D1" = .ok stEmpty := by
  exact ⟨rfl, rfl⟩

/-- C4: install_new_flow never touches the FlowStore: whenever it succeeds,
the flows map of the resulting state equals the one before the install, so
a read for any dpid returns absent or the pre-install value. -/
theorem C4_install_preserves_flowstore (st st' : FMState) (flow : Flow) (dpid : String)
    (h : FlowManager.install_new_flow st flow dpid = .ok st') :
    st'.flows = st.flows := by
  unfold FlowManager.install_new_flow at h
  cases hq : st.controller.get_switch_by_dpid dpid with
  | error e => rw [hq] at h; cases h
  | ok sw =>
      rw [hq] at h
      injection h with h
      subst h
      rfl

/-- Witness for C4 at a concrete install on stEmpty. -/
theorem C4_witness :
    (FMState.mk
      { switches := [("D1", swA), ("D2", swB)], msg_out := [mkAddEvent fA "connA"] }
      []).flows = stEmpty.flows :=
  C4_install_preserves_flowstore stEmpty _ fA "D1" (by rfl)

/-- C5: when dpid resolves to switch sw, dump_flows succeeds and appends
exactly one outbound stats-request event, with stats type OFPST_FLOW and
the default all-wildcard Match; since this holds at every state, repeated
calls each append one new such message. -/
theorem C5_dump_emits_one_flow_stats_request (st : FMState) (dpid : String) (sw : Switch)
    (h : st.controller.switches.lookup dpid = some sw) :
    FlowManager.dump_flows st dpid =
      .ok { st with controller := { st.controller with
              msg_out := st.controller.msg_out ++ [mkStatsRequestEvent sw.connection] } } := by
  simp [FlowManager.dump_flows, Controller.get_switch_by_dpid, h, Controller.put]

/-- Witness for C5: dump for D2 on stEmpty emits one stats-request event. -/
theorem C5_witness :
    FlowManager.dump_flows stEmpty "D2" =
      .ok { stEmpty with controller := { stEmpty.controller with
              msg_out := stEmpty.controller.msg_out ++ [mkStatsRequestEvent swB.connection] } } :=
  C5_dump_emits_one_flow_stats_request stEmpty "D2" swB (by rfl)

/-- C6: insert with no dpid designated fans out over every switch currently
known to the controller, emitting exactly one ADD flow-mod event per known
switch, in enumeration order, and leaves the flow store unchanged. -/
theorem C6_insert_fanout_one_add_per_switch (st : FMState) (flow : Flow) :
    Main.insert_flow st flow none =
      .ok { controller :=
              { switches := st.controller.switches,
                msg_out := st.controller.msg_out ++
                  (st.controller.switches.map Prod.fst).map
                    (fun d => mkAddEvent flow (connOf st.controller d)) },
            flows := st.flows } := by
  exact insertFanout_ok flow (st.controller.switches.map Prod.fst) st
    (fun d hd => lookup_isSome_of_mem_keys _ d hd)

/-- C7 counterexample: with two known switches D1, D2 and a nonempty
FlowStore, the per-switch clear call for D1 fails, the fan-out loop stops
with only D1 attempted — D2 is never attempted — and the error propagates
to the caller of the fan-out as an abort. -/
theorem C7_counterexample :
    FlowManager.clear_flows stCached "D1" = .error (.AttributeError "as_flow_mod") ∧
    (clearFanout stCached ["D1", "D2"]).1 = ["D1"] ∧
    Main.clear_flows stCached none = .error (.AttributeError "as_flow_mod") := by
  exact ⟨rfl, rfl, rfl⟩

/-- C7 amended: during any fan-out with no dpid — clear, delete or insert —
a failure of the per-switch call for one switch aborts the loop: none of
the loops has an exception handler, so the error propagates to the caller
and the remaining switches are not attempted (for clear and delete the
invoked-dpid trace stops at the failing switch; for insert the fan-out
returns the error with no further install performed). -/
theorem C7_fanout_aborts_on_per_switch_error (st : FMState) (d : String)
    (rest : List String) (e : Err) (flow : Flow) (flow_id : String) :
    (FlowManager.clear_flows st d = .error e →
      clearFanout st (d :: rest) = ([d], .error e)) ∧
    (FlowManager.delete_flow st flow_id d = .error e →
      deleteFanout flow_id st (d :: rest) = ([d], .error e)) ∧
    (FlowManager.install_new_flow st flow d = .error e →
      insertFanout flow st (d :: rest) = .error e) := by
  refine ⟨fun h => ?_, fun h => ?_, fun h => ?_⟩
  · simp [clearFanout, h]
  · simp [deleteFanout, h]
  · simp [insertFanout, h]

/-- Witness for the amended C7: with the unresolvable dpid D9 first, all
three fan-outs abort after the one failing call, D2 never attempted. -/
theorem C7_witness :
    clearFanout stCached ["D9", "D2"] =
      (["D9"], .error (.UnknownSwitchError "D9")) ∧
    deleteFanout "F7" stCached ["D9", "D2"] =
      (["D9"], .error (.UnknownSwitchError "D9")) ∧
    insertFanout fA stCached ["D9", "D2"] =
      .error (.UnknownSwitchError "D9") :=
  ⟨(C7_fanout_aborts_on_per_switch_error stCached "D9" ["D2"]
      (.UnknownSwitchError "D9") fA "F7").1 (by rfl),
   (C7_fanout_aborts_on_per_switch_error stCached "D9" ["D2"]
      (.UnknownSwitchError "D9") fA "F7").2.1 (by rfl),
   (C7_fanout_aborts_on_per_switch_error stCached "D9" ["D2"]
      (.UnknownSwitchError "D9") fA "F7").2.2 (by rfl)⟩

/-- C8: dump_flows for a dpid that does not resolve fails with
UnknownSwitchError; the switch resolution is the first step, before the
stats request is built or put, so the error short-circuits with no event
appended to the outbound buffer. -/
theorem C8_dump_unknown_raises_no_emit (st : FMState) (dpid : String)
    (h : st.controller.switches.lookup dpid = none) :
    FlowManager.dump_flows st dpid = .error (.UnknownSwitchError dpid) := by
  simp [FlowManager.dump_flows, Controller.get_switch_by_dpid, h]

/-- Witness for C8: dump for the unknown dpid D9. -/
theorem C8_witness :
    FlowManager.dump_flows stEmpty "D9" = .error (.UnknownSwitchError "D9") :=
  C8_dump_unknown_raises_no_emit stEmpty "D9" (by decide)

/-- C9: the handler ignores any stats reply whose body type is not
OFPST_FLOW: it raises no error and returns the state — flow store and
outbound buffer — entirely unchanged. -/
theorem C9_handler_ignores_non_flow_stats (st : FMState) (ev : StatsReplyEvent)
    (h : ev.message.body_type ≠ StatsTypes.OFPST_FLOW) :
    FlowManager.handle_flow_stats_reply st ev = .ok st := by
  simp [FlowManager.handle_flow_stats_reply, h]

/-- Witness for C9 at a port-stats reply. -/
theorem C9_witness :
    FlowManager.handle_flow_stats_reply stCached ⟨⟨.OFPST_PORT, []⟩, "D1"⟩ =
      .ok stCached :=
  C9_handler_ignores_non_flow_stats stCached ⟨⟨.OFPST_PORT, []⟩, "D1"⟩ (by decide)

/-- C10: retrieve_flows with a dpid that has no store entry fails with
KeyError rather than returning an empty list, while retrieve_flows with no
dpid succeeds and returns one cached value per switch that has an entry. -/
theorem C10_retrieve_flows_keyerror_vs_all (st : FMState) (d : String) :
    (st.flows.lookup d = none →
      Main.retrieve_flows st (some d) = .error (.KeyError d)) ∧
    Main.retrieve_flows st none = .ok (st.flows.map Prod.snd) := by
  constructor
  · intro h
    simp [Main.retrieve_flows, h]
  · rfl

/-- Witness for C10: never-polled D2 gives KeyError, the no-dpid read
returns the one cached list. -/
theorem C10_witness :
    Main.retrieve_flows stCached (some "D2") = .error (.KeyError "D2") ∧
    Main.retrieve_flows stCached none = .ok [[[fA]]] :=
  ⟨(C10_retrieve_flows_keyerror_vs_all stCached "D2").1 (by decide),
   (C10_retrieve_flows_keyerror_vs_all stCached "D2").2⟩

end OfFlowMgr
